import Mathlib

/-!
Shallow embedding of the ticker scheduling and polling engine of the
handball.net WhatsApp liveticker bot (src/app.js, src/polling.js,
src/utils.js, src/config.js), together with theorems checking the
specification's claims against it.

Conventions used throughout:
* JavaScript strings that may be `undefined` are modelled as `String`
  with `""` standing for the absent/falsy value (both `undefined` and
  `""` are falsy in every place the code tests them).
* `Set` objects of event ids are modelled as `List String` in insertion
  order; `Map` objects are association lists in insertion order, which
  matches the iteration order of a JavaScript `Map`.
* Timer handles (`scheduleTimeout`, `recapIntervalId`) are modelled by a
  boolean meaning "a timer is currently armed"; `clearTimeout` /
  `clearInterval` set it to false, `setTimeout` / `setInterval` set it
  to true.
* Asynchronous sends and fetches are modelled by explicit outcome
  parameters; the delivered messages are collected in an output log.
-/

/-- One feed event, as consumed from the handball.net combined JSON
(`ev.id`, `ev.type`, `ev.time`, `ev.score`, `ev.team`, `ev.message`,
`ev.timestamp`). `""` models an absent field. -/
structure Event where
  id : String := ""
  type : String := ""
  time : String := ""
  score : String := ""
  team : String := ""
  message : String := ""
  timestamp : Int := 0
deriving DecidableEq, Repr, Inhabited

/-- Team names resolved from the feed summary
(`{ home: ..., guest: ... }`). -/
structure TeamNames where
  home : String
  guest : String
deriving DecidableEq, Repr, Inhabited

/-- Label/emoji entry of `EVENT_MAP` (config.js). -/
structure EventInfo where
  label : String
  emoji : String
deriving DecidableEq, Repr, Inhabited

/-- `EVENT_MAP` from config.js, with the `"default"` fallback applied the
way `EVENT_MAP[ev.type] || EVENT_MAP["default"]` does. -/
def EVENT_MAP (t : String) : EventInfo :=
  match t with
  | "StartPeriod" => ⟨"Spielbeginn", "▶️"⟩
  | "StopPeriod" => ⟨"Periodenende", "⏸️"⟩
  | "Goal" => ⟨"Tor", "🤾‍♀️"⟩
  | "SevenMeterGoal" => ⟨"7-Meter Tor", "7️⃣✅"⟩
  | "SevenMeterMissed" => ⟨"7-Meter Fehlwurf", "7️⃣❌"⟩
  | "TwoMinutePenalty" => ⟨"Zeitstrafe", "✌🏼"⟩
  | "Warning" => ⟨"Gelbe Karte", "🟨"⟩
  | "Timeout" => ⟨"Timeout", "⏱️"⟩
  | "Disqualification" => ⟨"Rote Karte", "🟥"⟩
  | "DisqualificationWithReport" => ⟨"Blaue Karte", "🟦"⟩
  | _ => ⟨"Ereignis", "📢"⟩

/-- Characters of a string up to (excluding) the first `':'`; this is
`s.split(':')[0]` on the character level. -/
def untilColon : List Char → List Char
  | [] => []
  | c :: cs => if c = ':' then [] else c :: untilColon cs

/-- `parseInt(s, 10)`: value of the longest digit prefix, `none` when the
string does not start with a digit (JavaScript `NaN`). -/
def leadingNat (cs : List Char) : Option Nat :=
  let ds := cs.takeWhile Char.isDigit
  if ds.isEmpty then none
  else some (ds.foldl (fun n c => n * 10 + (c.toNat - 48)) 0)

/-- `parseInt(time.split(':')[0], 10)` collapsed to a `Nat`, with the
`NaN` case mapped to `0`.  Every use in the code only compares the result
with `30` (`minute > 30`), and `NaN > 30` and `0 > 30` agree, so the
collapse is faithful.  An absent `ev.time` is the empty string, which also
yields `0`, agreeing with the `ev.time ? parseInt(...) : 0` guard in
`processEvents`. -/
def minuteOf (time : String) : Nat :=
  (leadingNat (untilColon time.data)).getD 0

/-- First element of `s.split(sep)` (as a string). -/
def firstPart (s sep : String) : String :=
  (s.splitOn sep).headD ""

/-- Second element of `s.split(sep)`, `""` when there is none. -/
def secondPart (s sep : String) : String :=
  ((s.splitOn sep).drop 1).headD ""

/-- JavaScript `String.prototype.replace` with a string pattern replaces
only the first occurrence. -/
def replaceFirst (s pat rep : String) : String :=
  match s.splitOn pat with
  | [] => s
  | [x] => x
  | x :: y :: rest => x ++ rep ++ String.intercalate pat (y :: rest)

/-- `formatEvent` from utils.js: renders one event as a live-mode
WhatsApp message.  The `gameSummary` argument of the original is unused
by the current code and is dropped here. -/
def formatEvent (ev : Event) (teamNames : Option TeamNames) : String :=
  let eventInfo := EVENT_MAP ev.type
  let homeTeamName := match teamNames with | some tn => tn.home | none => "Heim"
  let guestTeamName := match teamNames with | some tn => tn.guest | none => "Gast"
  let time := if ev.time != "" then " (" ++ ev.time ++ ")" else ""
  match ev.type with
  | "Goal" | "SevenMeterGoal" =>
    let pointsHome := firstPart ev.score "-"
    let pointsGuest := secondPart ev.score "-"
    let scoreLine :=
      if ev.team == "Home" then
        homeTeamName ++ "  *" ++ pointsHome ++ "*:" ++ pointsGuest ++ "  " ++ guestTeamName
      else
        homeTeamName ++ "  " ++ pointsHome ++ ":*" ++ pointsGuest ++ "* " ++ guestTeamName
    scoreLine ++ "\n" ++ eventInfo.emoji ++ " " ++ ev.message ++ " (" ++ time ++ ")"
  | "SevenMeterMissed" | "TwoMinutePenalty" | "Warning" | "Disqualification"
  | "DisqualificationWithReport" | "Timeout" =>
    eventInfo.emoji ++ " " ++ ev.message ++ " (" ++ time ++ ")"
  | "StartPeriod" =>
    if ev.time == "00:00" then "▶️ *Das Spiel hat begonnen!*"
    else "▶️ *Die zweite Halbzeit hat begonnen!*"
  | "StopPeriod" =>
    let homeScore := firstPart ev.score "-"
    let awayScore := secondPart ev.score "-"
    if minuteOf ev.time > 30 then
      "🏁 *Spielende*\n" ++ homeTeamName ++ "  *" ++ homeScore ++ ":" ++ awayScore ++ "* " ++ guestTeamName
    else
      "⏸️ *Halbzeit*\n" ++ homeTeamName ++ "  *" ++ homeScore ++ ":" ++ awayScore ++ "* " ++ guestTeamName
  | _ =>
    eventInfo.emoji ++ " " ++ (if ev.message != "" then ev.message else eventInfo.label) ++ " (" ++ time ++ ")"

/-- `formatRecapEventLine` from utils.js (its `tickerState` parameter is
unused by the original and dropped here). -/
def formatRecapEventLine (ev : Event) : String :=
  let eventInfo := EVENT_MAP ev.type
  let time := if ev.time != "" then ev.time else "--:--"
  let scoreStr := if ev.score != "" then replaceFirst ev.score "-" ":" else "--:--"
  let detailStr := if ev.message != "" then ev.message else eventInfo.label
  match ev.type with
  | "Goal" | "SevenMeterGoal" =>
    let home := firstPart scoreStr ":"
    let away := secondPart scoreStr ":"
    let bolded := if ev.team == "Home" then "*" ++ home ++ "*:" ++ away else home ++ ":*" ++ away ++ "*"
    eventInfo.emoji ++ " " ++ time ++ " | " ++ bolded ++ " | " ++ detailStr
  | "StartPeriod" | "StopPeriod" =>
    eventInfo.emoji ++ " " ++ time ++ " | *" ++ detailStr ++ "* | *" ++ scoreStr ++ "*"
  | _ =>
    eventInfo.emoji ++ " " ++ time ++ " | " ++ scoreStr ++ " | " ++ detailStr

/-- In-memory state of one ticker (`tickerState` in polling.js).  The
defaults correspond to `{ seen: new Set() }`, the object created when a
chat id is first seen: every other field is `undefined`, hence falsy. -/
structure TickerState where
  isPolling : Bool := false
  isScheduling : Bool := false
  isScheduled : Bool := false
  mode : String := ""
  meetingPageUrl : String := ""
  groupName : String := ""
  seen : List String := []
  lastUpdatedAt : String := ""
  teamNames : Option TeamNames := none
  recapEvents : Option (List Event) := none
  scheduleTimerActive : Bool := false
  recapTimerActive : Bool := false
deriving DecidableEq, Repr, Inhabited

/-- One queued unit of work (`job` objects in polling.js).  The original
also carries a `jobId` (`Date.now()`, used only for logging) and, on poll
jobs, a direct `tickerState` reference that `runWorker` never reads (it
re-fetches the state from the registry); both are dropped. -/
structure Job where
  type : String
  chatId : String
  meetingPageUrl : String := ""
deriving DecidableEq, Repr, Inhabited

/-- `true` exactly for the jobs matched by
`job => job.chatId === chatId && job.type === 'poll'`. -/
def isPollFor (c : String) (j : Job) : Bool :=
  j.type == "poll" && j.chatId == c

/-- Number of queued poll jobs for a chat id. -/
def pollCount (q : List Job) (c : String) : Nat :=
  q.countP (isPollFor c)

/-- `findIndex` + `splice(index, 1)`: remove the first job satisfying the
predicate, if any. -/
def removeFirstJob (p : Job → Bool) : List Job → List Job
  | [] => []
  | j :: rest => if p j then rest else j :: removeFirstJob p rest

/-- Association-list lookup, modelling `Map.prototype.get` /
`find(([key, val]) => ...)`. -/
def rget (m : List (String × TickerState)) (k : String) : Option TickerState :=
  (m.find? (fun p => p.1 == k)).map (·.2)

/-- `Map.prototype.set`: update in place when the key exists (keeping its
position), append otherwise. -/
def rset (m : List (String × TickerState)) (k : String) (v : TickerState) :
    List (String × TickerState) :=
  if m.any (fun p => p.1 == k) then
    m.map (fun p => if p.1 == k then (k, v) else p)
  else m ++ [(k, v)]

/-- `Map.prototype.delete`. -/
def rdel (m : List (String × TickerState)) (k : String) :
    List (String × TickerState) :=
  m.filter (fun p => p.1 != k)

/-- A persisted entry of scheduled_tickers.json (`currentSchedule[chatId]`).
`startTime` is kept as epoch milliseconds; the original stores it as an
ISO string. -/
structure SchedEntry where
  meetingPageUrl : String := ""
  startTime : Int := 0
  groupName : String := ""
  mode : String := ""
deriving DecidableEq, Repr, Inhabited

/-- Lookup in the persisted schedule map. -/
def sget (m : List (String × SchedEntry)) (k : String) : Option SchedEntry :=
  (m.find? (fun p => p.1 == k)).map (·.2)

/-- `currentSchedule[chatId] = entry` followed by `saveScheduledTickers`. -/
def sset (m : List (String × SchedEntry)) (k : String) (v : SchedEntry) :
    List (String × SchedEntry) :=
  if m.any (fun p => p.1 == k) then
    m.map (fun p => if p.1 == k then (k, v) else p)
  else m ++ [(k, v)]

/-- `delete currentSchedule[chatId]` followed by `saveScheduledTickers`
(a no-op on the map when the key is absent, exactly as in the code where
the delete+save is guarded by `if (currentSchedule[chatId])`). -/
def sremove (m : List (String × SchedEntry)) (k : String) :
    List (String × SchedEntry) :=
  m.filter (fun p => p.1 != k)

/-- `saveSeenTickers`: serialise every registry entry that has a `seen`
set (in this model every entry does) as chatId -> array of ids. -/
def saveSeen (reg : List (String × TickerState)) : List (String × List String) :=
  reg.map (fun p => (p.1, p.2.seen))

/-- `MAX_WORKERS` (polling.js). -/
def MAX_WORKERS : Nat := 2

/-- `PRE_GAME_START_MINUTES` (polling.js). -/
def PRE_GAME_START_MINUTES : Int := 5

/-- `sendRecapMessage` (polling.js), restricted to an existing ticker
state.  `sendOk` tells whether `client.sendMessage` succeeds; the result
is the updated ticker state and the delivered recap message, if any.
The `teamNames` header uses empty names when they are still unresolved
(the original would throw there; no caller reaches that situation with a
non-empty buffer). -/
def sendRecapOn (t : TickerState) (sendOk : Bool) : TickerState × Option String :=
  let buf := t.recapEvents.getD []
  if !t.isPolling || buf.isEmpty then
    (if t.recapEvents.isSome then { t with recapEvents := some [] } else t, none)
  else
    let evs := buf.mergeSort (fun a b => a.timestamp ≤ b.timestamp)
    let firstEventTime := (evs.headD default).time
    let lastEventTime := (evs.getLastD default).time
    let startMinute := if firstEventTime != "" then firstPart firstEventTime ":" else "0"
    let endMinute := if lastEventTime != "" then firstPart lastEventTime ":" else "??"
    let timeRangeTitle := "Minute " ++ startMinute ++ " - " ++ endMinute
    let recapLines := evs.map formatRecapEventLine
    let validLines := recapLines.filter (fun l => l != "" && l.trim != "")
    if validLines.isEmpty then
      ({ t with recapEvents := some [] }, none)
    else
      let tn := t.teamNames.getD ⟨"", ""⟩
      let teamHeader := "*" ++ tn.home ++ "* : *" ++ tn.guest ++ "*"
      let recapBody := String.intercalate "\n" validLines
      let finalMessage := "📬 *Recap " ++ timeRangeTitle ++ "*\n\n" ++ teamHeader ++ "\n" ++ recapBody
      ({ t with recapEvents := some [] }, if sendOk then some finalMessage else none)

/-- Result of `processEvents` (polling.js): the mutated ticker state, the
job queue after the possible terminal splice, the messages delivered to
the chat (in delivery order), the live-mode events for which a message
was delivered (in delivery order; an auxiliary observation used to state
the chronological-delivery property), the side effects scheduled with
`setTimeout` as (delay in ms, tag) pairs, whether the game-end branch
ran, and the `newUnseenEventsProcessed` return value. -/
structure ProcOut where
  ticker : TickerState
  queue : List Job
  messages : List String
  liveSent : List Event
  delayed : List (Nat × String)
  gameEnded : Bool
  newUnseen : Bool
deriving Repr

/-- State change performed by one iteration of the `for (const ev of
events)` loop of `processEvents` on an unseen event, before the game-end
check: mark the event seen, append it to the recap buffer in recap mode,
and flush the buffer when the event is a period boundary in recap mode.
(Marking seen does not change `mode`, `teamNames` or `recapEvents`, so
the message computation below may read them from `t` directly.) -/
def tickerAfterEvent (t : TickerState) (ev : Event) : TickerState :=
  let t1 := { t with seen := t.seen ++ [ev.id] }
  let t2 :=
    if t1.mode == "recap" then
      { t1 with recapEvents := some ((t1.recapEvents.getD []) ++ [ev]) }
    else t1
  if (ev.type == "StopPeriod" || ev.type == "StartPeriod") && t2.mode == "recap" then
    (sendRecapOn t2 true).1
  else t2

/-- Messages delivered during one loop iteration on an unseen event: the
live-mode event message (when non-empty) followed by the recap flush
message when a period boundary forces a flush in recap mode. -/
def eventMessages (t : TickerState) (ev : Event) : List String :=
  let msg := if t.mode == "live" then formatEvent ev t.teamNames else ""
  let msgs1 := if t.mode == "live" && msg != "" then [msg] else []
  let t1 := { t with seen := t.seen ++ [ev.id] }
  let t2 :=
    if t1.mode == "recap" then
      { t1 with recapEvents := some ((t1.recapEvents.getD []) ++ [ev]) }
    else t1
  let msgs2 :=
    if (ev.type == "StopPeriod" || ev.type == "StartPeriod") && t2.mode == "recap" then
      (sendRecapOn t2 true).2.toList
    else []
  msgs1 ++ msgs2

/-- The events for which a live-mode message is delivered during one loop
iteration on an unseen event (the auxiliary observation recorded in
`ProcOut.liveSent`). -/
def eventLiveSent (t : TickerState) (ev : Event) : List Event :=
  if t.mode == "live" && (formatEvent ev t.teamNames) != "" then [ev] else []

/-- The `for (const ev of events)` loop of `processEvents`, processing
the chronological (already reversed) event list. -/
def processLoop (c : String) (q : List Job) : TickerState → List Event → ProcOut
  | t, [] =>
    { ticker := t, queue := q, messages := [], liveSent := [],
      delayed := [], gameEnded := false, newUnseen := false }
  | t, ev :: rest =>
    if t.seen.contains ev.id then
      processLoop c q t rest
    else
      if ev.type == "StopPeriod" && minuteOf ev.time > 30 then
        { ticker := { tickerAfterEvent t ev with isPolling := false, recapTimerActive := false },
          queue := removeFirstJob (fun j => j.chatId == c) q,
          messages := eventMessages t ev,
          liveSent := eventLiveSent t ev,
          delayed := [(1000, "stats"), (2000, "aiSummary"), (4000, "finalMessage"), (3600000, "cleanup")],
          gameEnded := true,
          newUnseen := true }
      else
        let out := processLoop c q (tickerAfterEvent t ev) rest
        { out with
          messages := eventMessages t ev ++ out.messages,
          liveSent := eventLiveSent t ev ++ out.liveSent,
          newUnseen := true }

/-- `processEvents` (polling.js): the feed list arrives newest-first and
is reversed (`gameData.events.slice().reverse()`) before the loop. -/
def processEvents (events : List Event) (t : TickerState) (c : String)
    (q : List Job) : ProcOut :=
  processLoop c q t events.reverse

/-- Summary part of a fetched snapshot (`gameData.summary`): kickoff time
in epoch milliseconds, team names, and the `updatedAt` version marker
(`""` models an absent/falsy marker). -/
structure GameSummary where
  startsAt : Int := 0
  homeTeam : String := ""
  awayTeam : String := ""
  updatedAt : String := ""
deriving DecidableEq, Repr, Inhabited

/-- Result of the worker's Axios fetch.  `fail` covers a timeout, a
transport failure and a payload missing `summary` or `events` (the code
throws in all three cases and they are indistinguishable to the `catch`
block). -/
inductive FetchOutcome where
  | fail
  | ok (summary : GameSummary) (events : List Event)
deriving DecidableEq, Repr

/-- Whole-system state: the shared mutable state of app.js / polling.js
(registry, queue, worker counter, round-robin cursor), the two persisted
JSON files, plus two observation logs: `inFlight`, the jobs claimed by a
worker whose fetch has not completed yet, and `messages`, the
(chatId, text) pairs delivered so far. -/
structure SysState where
  registry : List (String × TickerState) := []
  jobQueue : List Job := []
  inFlight : List Job := []
  activeWorkers : Nat := 0
  lastPolledIndex : Int := -1
  scheduleFile : List (String × SchedEntry) := []
  seenFile : List (String × List String) := []
  messages : List (String × String) := []
deriving DecidableEq, Repr, Inhabited

/-- Fresh start of app.js with empty persistence files. -/
def initState : SysState := {}

/-- Reply of the !start1 handler when a ticker is already running or
scheduled (the AlreadyActive rejection). -/
def alreadyActiveMsg : String :=
  "In dieser Gruppe läuft oder ist bereits ein Live-Ticker geplant. Stoppen oder resetten Sie ihn zuerst."

/-- `queueTickerScheduling` (polling.js): validate the URL, create or
overwrite the in-memory ticker state and enqueue a `schedule` job.
`urlValid` models whether `new URL(meetingPageUrl)` succeeds. -/
def queueTickerScheduling (s : SysState) (meetingPageUrl c groupName mode : String)
    (urlValid : Bool) : SysState :=
  if !urlValid then
    { s with messages := s.messages ++ [(c, "Fehler: Die angegebene URL ist ungültig.")] }
  else
    let base := (rget s.registry c).getD {}
    let t : TickerState :=
      { base with
        isPolling := false
        isScheduling := true
        meetingPageUrl := meetingPageUrl
        groupName := groupName
        mode := mode
        recapEvents := some [] }
    { s with
      registry := rset s.registry c t
      jobQueue := s.jobQueue ++ [{ type := "schedule", chatId := c, meetingPageUrl := meetingPageUrl }]
      messages := s.messages ++ [(c, "⏳ Ticker-Planung für eine Gruppe wird bearbeitet...")] }

/-- The `!start1` branch of the message handler in app.js: reject when a
ticker for the chat is polling or scheduled, otherwise call
`startPolling` (= `queueTickerScheduling`).  `recapFlag` models
`args[2] === 'recap'`. -/
def startCommand (s : SysState) (c meetingPageUrl groupName : String)
    (recapFlag urlValid : Bool) : SysState :=
  let rejected :=
    match rget s.registry c with
    | some t => t.isPolling || t.isScheduled
    | none => false
  if rejected then
    { s with messages := s.messages ++ [(c, alreadyActiveMsg)] }
  else
    queueTickerScheduling s meetingPageUrl c groupName
      (if recapFlag then "recap" else "live") urlValid

/-- `beginActualPolling` (polling.js): activate polling for a ticker,
drop its persisted schedule entry, send the legend and arm the recap
timer in recap mode, and unshift a priority poll job unless one is
already queued. -/
def beginActualPolling (s : SysState) (c : String) : SysState :=
  match rget s.registry c with
  | none =>
    { s with scheduleFile := sremove s.scheduleFile c }
  | some t =>
    if t.isPolling then s
    else
      let t1 := { t with isPolling := true, isScheduled := false }
      let s1 :=
        { s with
          registry := rset s.registry c t1
          scheduleFile := sremove s.scheduleFile c }
      let s2 :=
        if t1.mode == "recap" then
          { s1 with
            registry := rset s1.registry c { t1 with recapTimerActive := true }
            messages := s1.messages ++ [(c, "ℹ️ *Ticker-Legende:*")] }
        else s1
      if s2.jobQueue.any (isPollFor c) then s2
      else
        { s2 with
          jobQueue := { type := "poll", chatId := c, meetingPageUrl := t1.meetingPageUrl } :: s2.jobQueue }

/-- `masterScheduler` (polling.js): pick one polling ticker round-robin
and enqueue a poll job for it unless one is already queued.  The
original recovers the chat id of the picked state object by reference
equality over the registry entries; here the picked entry's own key is
used, which is the same id as long as distinct chats hold distinct state
objects (always true: every state object is created per chat). -/
def masterSchedulerStep (s : SysState) : SysState :=
  let polling := s.registry.filter (fun p => p.2.isPolling)
  if polling.length = 0 then s
  else
    let idx := (s.lastPolledIndex + 1) % (polling.length : Int)
    let s1 := { s with lastPolledIndex := idx }
    match polling[idx.toNat]? with
    | none => s1
    | some (c, t) =>
      if t.isPolling && !(s1.jobQueue.any (isPollFor c)) then
        { s1 with
          jobQueue := s1.jobQueue ++ [{ type := "poll", chatId := c, meetingPageUrl := t.meetingPageUrl }] }
      else s1

/-- `dispatcherLoop` (polling.js) together with the synchronous prefix of
`runWorker`: when the queue is non-empty and budget remains, reserve a
worker slot, shift the oldest job and run the worker's pre-execution
check.  A stale job is discarded and the slot freed immediately; an
accepted job becomes in-flight (its Axios fetch is pending). -/
def dispatchStep (s : SysState) : SysState :=
  match s.jobQueue with
  | [] => s
  | j :: rest =>
    if s.activeWorkers < MAX_WORKERS then
      let s1 := { s with activeWorkers := s.activeWorkers + 1, jobQueue := rest }
      let stale :=
        match rget s1.registry j.chatId with
        | none => true
        | some t =>
          (j.type == "poll" && !t.isPolling) || (j.type == "schedule" && !t.isScheduling)
      if stale then { s1 with activeWorkers := s1.activeWorkers - 1 }
      else { s1 with inFlight := s1.inFlight ++ [j] }
    else s

/-- Completion of an in-flight `schedule` job in `runWorker` (polling.js)
once its fetch resolves at wall-clock time `now`.  On any failure the
`catch` block notifies the user, deletes the ticker and purges its
schedule entry; on success the deferred or immediate start branch runs.
If the ticker was deleted while the fetch was pending, the original
mutates a no-longer-registered object; those mutations are invisible in
the registry and are modelled as a no-op.  In all cases the `finally`
block frees the worker slot. -/
def completeScheduleBody (s : SysState) (j : Job) (outcome : FetchOutcome)
    (now : Int) : SysState :=
  let c := j.chatId
  match outcome with
    | .fail =>
      { s with
        messages := s.messages ++ [(c, "Fehler: Die initiale Planung des Tickers ist fehlgeschlagen. Bitte versuchen Sie es erneut.")]
        registry := rdel s.registry c
        scheduleFile := sremove s.scheduleFile c }
    | .ok summary _events =>
      match rget s.registry c with
      | none => s
      | some t =>
        let startTime := summary.startsAt - PRE_GAME_START_MINUTES * 60000
        let delay := startTime - now
        let t1 :=
          { t with
            teamNames := some ⟨summary.homeTeam, summary.awayTeam⟩
            lastUpdatedAt := summary.updatedAt }
        if delay > 0 then
          let t2 := { t1 with isPolling := false, isScheduled := true, scheduleTimerActive := true }
          { s with
            messages := s.messages ++ [(c, "✅ Ticker ist geplant und startet automatisch.")]
            registry := rset s.registry c t2
            scheduleFile := sset s.scheduleFile c
              { meetingPageUrl := t2.meetingPageUrl, startTime := startTime,
                groupName := t2.groupName, mode := t2.mode } }
        else
          let t2 := { t1 with isScheduling := false }
          let sA :=
            { s with
              messages := s.messages ++ [(c, "▶️ Ticker wird sofort gestartet.")]
              registry := rset s.registry c t2 }
          beginActualPolling sA c

/-- The `finally` block of `runWorker` applied after the try/catch body of
a `schedule` job: free the worker slot. -/
def completeScheduleStep (s : SysState) (j : Job) (outcome : FetchOutcome)
    (now : Int) : SysState :=
  let s1 := completeScheduleBody s j outcome now
  { s1 with activeWorkers := s1.activeWorkers - 1, inFlight := s1.inFlight.erase j }

/-- Completion of an in-flight `poll` job in `runWorker` (polling.js).
A fetch failure is logged and swallowed.  On success, missing team names
are backfilled, and when the `updatedAt` marker is truthy and differs
from `lastUpdatedAt` the snapshot is handed to `processEvents`; the seen
file is rewritten when new events were processed.  As for schedule jobs,
mutations of a ticker deleted while the fetch was pending are not
registry-visible and are modelled as a no-op. -/
def completePollBody (s : SysState) (j : Job) (outcome : FetchOutcome) : SysState :=
  let c := j.chatId
  match outcome with
    | .fail => s
    | .ok summary events =>
      match rget s.registry c with
      | none => s
      | some t =>
        let t0 :=
          if t.teamNames.isNone then
            { t with teamNames := some ⟨summary.homeTeam, summary.awayTeam⟩ }
          else t
        let newUpdatedAt := summary.updatedAt
        if newUpdatedAt != "" && newUpdatedAt != t0.lastUpdatedAt then
          let t1 := { t0 with lastUpdatedAt := newUpdatedAt }
          let out := processEvents events t1 c s.jobQueue
          let s1 :=
            { s with
              registry := rset s.registry c out.ticker
              jobQueue := out.queue
              messages := s.messages ++ out.messages.map (fun m => (c, m)) }
          if out.newUnseen then { s1 with seenFile := saveSeen s1.registry } else s1
        else
          { s with registry := rset s.registry c t0 }

/-- The `finally` block of `runWorker` applied after the try/catch body of
a `poll` job: free the worker slot. -/
def completePollStep (s : SysState) (j : Job) (outcome : FetchOutcome) : SysState :=
  let s1 := completePollBody s j outcome
  { s1 with activeWorkers := s1.activeWorkers - 1, inFlight := s1.inFlight.erase j }

/-- `sendRecapMessage` lifted to the system state: the recap interval
callback re-fetches the ticker by chat id and no-ops when it is gone. -/
def sendRecapMessageOn (s : SysState) (c : String) (sendOk : Bool) : SysState :=
  match rget s.registry c with
  | none => s
  | some t =>
    let r := sendRecapOn t sendOk
    { s with
      registry := rset s.registry c r.1
      messages := s.messages ++ (r.2.map (fun m => (c, m))).toList }

/-- The `!stop1` branch of the message handler in app.js. -/
def stopCommand (s : SysState) (c : String) : SysState :=
  match rget s.registry c with
  | none =>
    { s with messages := s.messages ++ [(c, "In dieser Gruppe läuft derzeit kein Live-Ticker.")] }
  | some t =>
    let stopped1 := t.isScheduled && t.scheduleTimerActive
    let t1 :=
      if stopped1 then { t with scheduleTimerActive := false, isScheduled := false } else t
    let sched1 := if stopped1 then sremove s.scheduleFile c else s.scheduleFile
    let t2 :=
      if t1.isPolling then { t1 with isPolling := false, recapTimerActive := false } else t1
    let stopped2 := stopped1 || t1.isPolling
    let reply :=
      if stopped2 then "Laufender/geplanter Live-Ticker in dieser Gruppe gestoppt."
      else "In dieser Gruppe läuft derzeit kein Live-Ticker."
    { s with
      registry := rset s.registry c t2
      scheduleFile := sched1
      jobQueue := removeFirstJob (fun j => j.chatId == c) s.jobQueue
      messages := s.messages ++ [(c, reply)] }

/-- The `!reset1` branch of the message handler in app.js. -/
def resetCommand (s : SysState) (c : String) : SysState :=
  let s1 :=
    match rget s.registry c with
    | none => s
    | some t =>
      { s with
        registry := rset s.registry c
          { t with scheduleTimerActive := false, recapTimerActive := false,
                   isPolling := false, isScheduled := false }
        jobQueue := removeFirstJob (fun j => j.chatId == c) s.jobQueue }
  let s2 := { s1 with registry := rdel s1.registry c }
  { s2 with
    seenFile := saveSeen s2.registry
    scheduleFile := sremove s2.scheduleFile c
    messages := s2.messages ++ [(c, "Alle Ticker-Daten für diese Gruppe wurden zurückgesetzt.")] }

/-- The deferred cleanup scheduled one hour after game end
(`processEvents`): delete the ticker and rewrite the seen file if it is
still registered. -/
def cleanupFireStep (s : SysState) (c : String) : SysState :=
  if (rget s.registry c).isSome then
    let r := rdel s.registry c
    { s with registry := r, seenFile := saveSeen r }
  else s

/-- One interleaving step of the system: a chat command, a tick of one of
the two periodic loops, a timer callback, the completion of an in-flight
fetch, or the deferred cleanup. -/
inductive Step : SysState → SysState → Prop where
  | start (s : SysState) (c meetingPageUrl groupName : String) (recapFlag urlValid : Bool) :
      Step s (startCommand s c meetingPageUrl groupName recapFlag urlValid)
  | dispatch (s : SysState) : Step s (dispatchStep s)
  | masterTick (s : SysState) : Step s (masterSchedulerStep s)
  | completeSchedule (s : SysState) (j : Job) (outcome : FetchOutcome) (now : Int)
      (hmem : j ∈ s.inFlight) (htype : j.type = "schedule") :
      Step s (completeScheduleStep s j outcome now)
  | completePoll (s : SysState) (j : Job) (outcome : FetchOutcome)
      (hmem : j ∈ s.inFlight) (htype : j.type = "poll") :
      Step s (completePollStep s j outcome)
  | scheduleTimerFire (s : SysState) (c : String)
      (harmed : (rget s.registry c).map (·.scheduleTimerActive) = some true) :
      Step s (beginActualPolling s c)
  | recapTimerTick (s : SysState) (c : String) (sendOk : Bool)
      (harmed : (rget s.registry c).map (·.recapTimerActive) = some true) :
      Step s (sendRecapMessageOn s c sendOk)
  | stop (s : SysState) (c : String) : Step s (stopCommand s c)
  | reset (s : SysState) (c : String) : Step s (resetCommand s c)
  | cleanupFire (s : SysState) (c : String) : Step s (cleanupFireStep s c)

/-- States reachable from a fresh start. -/
inductive Reachable : SysState → Prop where
  | init : Reachable initState
  | step {s s' : SysState} : Reachable s → Step s s' → Reachable s'

/-- Updating a key and reading it back yields the written value. -/
theorem rget_rset_self (m : List (String × TickerState)) (k : String) (v : TickerState) :
    rget (rset m k v) k = some v := by
  unfold rget rset
  split
  · rename_i hany
    induction m with
    | nil => simp at hany
    | cons p rest ih =>
      by_cases hp : p.1 == k
      · simp [hp, List.find?]
      · simp only [List.map_cons, hp, if_neg, List.find?]
        simp only [hp, Bool.false_eq_true, not_false_eq_true, if_neg]
        simp only [List.any_cons, hp, Bool.false_or] at hany
        exact ih hany
  · rename_i hany
    induction m with
    | nil => simp [List.find?]
    | cons p rest ih =>
      simp only [List.any_cons, Bool.or_eq_true, not_or] at hany
      have hp : (p.1 == k) = false := by
        cases h : p.1 == k
        · rfl
        · exact absurd h hany.1
      simp only [List.cons_append, List.find?, hp]
      exact ih (by simp [hany.2])

/-- `removeFirstJob` yields a sublist of the original queue. -/
theorem removeFirstJob_sublist (p : Job → Bool) (q : List Job) :
    List.Sublist (removeFirstJob p q) q := by
  induction q with
  | nil => simp [removeFirstJob]
  | cons j rest ih =>
    simp only [removeFirstJob]
    split
    · exact List.sublist_cons_self j rest
    · exact List.Sublist.cons₂ j ih

/-- No queue reachable by the engine holds two poll jobs for one chat. -/
def QueueOk (q : List Job) : Prop := ∀ c, pollCount q c ≤ 1

theorem queueOk_nil : QueueOk [] := by
  intro c; simp [pollCount]

theorem queueOk_of_sublist {q q' : List Job} (hs : List.Sublist q' q) (h : QueueOk q) : QueueOk q' :=
  fun c => le_trans (List.Sublist.countP_le _ hs) (h c)

theorem pollCount_append_one (q : List Job) (j : Job) (c : String) :
    pollCount (q ++ [j]) c = pollCount q c + (if isPollFor c j then 1 else 0) := by
  simp [pollCount, List.countP_append, List.countP_cons]

theorem pollCount_cons (q : List Job) (j : Job) (c : String) :
    pollCount (j :: q) c = pollCount q c + (if isPollFor c j then 1 else 0) := by
  simp [pollCount, List.countP_cons]

theorem pollCount_eq_zero_of_any_false {q : List Job} {c : String}
    (h : q.any (isPollFor c) = false) : pollCount q c = 0 := by
  rw [pollCount, List.countP_eq_zero]
  intro j hj
  have := (List.any_eq_false).mp h j hj
  simpa using this

/-- Appending a non-poll job cannot break the invariant. -/
theorem queueOk_append_sched (q : List Job) (j : Job) (hj : j.type = "schedule")
    (h : QueueOk q) : QueueOk (q ++ [j]) := by
  intro c
  rw [pollCount_append_one]
  have : isPollFor c j = false := by
    simp [isPollFor, hj]
  simp [this]
  exact h c

/-- Appending a poll job guarded by the `jobQueue.some(...)` check keeps
the invariant. -/
theorem queueOk_append_poll (q : List Job) (c u : String)
    (hg : q.any (isPollFor c) = false) (h : QueueOk q) :
    QueueOk (q ++ [{ type := "poll", chatId := c, meetingPageUrl := u }]) := by
  intro d
  rw [pollCount_append_one]
  by_cases hdc : d = c
  · subst hdc
    rw [pollCount_eq_zero_of_any_false hg]
    simp [isPollFor]
  · have : isPollFor d { type := "poll", chatId := c, meetingPageUrl := u } = false := by
      simp [isPollFor]
      exact fun hcd => absurd hcd.symm hdc
    simp [this]
    exact h d

/-- Same for the priority unshift in `beginActualPolling`. -/
theorem queueOk_cons_poll (q : List Job) (c u : String)
    (hg : q.any (isPollFor c) = false) (h : QueueOk q) :
    QueueOk ({ type := "poll", chatId := c, meetingPageUrl := u } :: q) := by
  intro d
  rw [pollCount_cons]
  by_cases hdc : d = c
  · subst hdc
    rw [pollCount_eq_zero_of_any_false hg]
    simp [isPollFor]
  · have : isPollFor d { type := "poll", chatId := c, meetingPageUrl := u } = false := by
      simp [isPollFor]
      exact fun hcd => absurd hcd.symm hdc
    simp [this]
    exact h d

/-- `processEvents` only ever removes jobs from the queue (the terminal
splice); it never adds any. -/
theorem processLoop_queue_sublist (c : String) (q : List Job) (t : TickerState)
    (evs : List Event) : List.Sublist (processLoop c q t evs).queue q := by
  induction evs generalizing t with
  | nil => simp [processLoop]
  | cons ev rest ih =>
    simp only [processLoop]
    split
    · exact ih t
    · split
      · exact removeFirstJob_sublist _ q
      · exact ih _

theorem processEvents_queue_sublist (events : List Event) (t : TickerState)
    (c : String) (q : List Job) : List.Sublist (processEvents events t c q).queue q :=
  processLoop_queue_sublist c q t events.reverse

theorem queueTickerScheduling_queueOk (s : SysState) (url c g m : String) (uv : Bool)
    (h : QueueOk s.jobQueue) : QueueOk (queueTickerScheduling s url c g m uv).jobQueue := by
  unfold queueTickerScheduling
  split
  · exact h
  · exact queueOk_append_sched s.jobQueue _ rfl h

theorem startCommand_queueOk (s : SysState) (c url g : String) (rf uv : Bool)
    (h : QueueOk s.jobQueue) : QueueOk (startCommand s c url g rf uv).jobQueue := by
  unfold startCommand
  try dsimp only
  split
  · exact h
  · exact queueTickerScheduling_queueOk s url c g _ uv h

theorem beginActualPolling_queueOk (s : SysState) (c : String)
    (h : QueueOk s.jobQueue) : QueueOk (beginActualPolling s c).jobQueue := by
  unfold beginActualPolling
  split
  · exact h
  · try dsimp only
    split
    · exact h
    · split
      · split
        · exact h
        · rename_i hg
          exact queueOk_cons_poll s.jobQueue c _ (by simpa using hg) h
      · split
        · exact h
        · rename_i hg
          exact queueOk_cons_poll s.jobQueue c _ (by simpa using hg) h

theorem masterSchedulerStep_queueOk (s : SysState)
    (h : QueueOk s.jobQueue) : QueueOk (masterSchedulerStep s).jobQueue := by
  unfold masterSchedulerStep
  try dsimp only
  split
  · exact h
  · try dsimp only
    split
    · exact h
    · try dsimp only
      split
      · rename_i hg
        refine queueOk_append_poll s.jobQueue _ _ ?_ h
        have h2 := (Bool.and_eq_true _ _ |>.mp hg).2
        simpa using h2
      · exact h

theorem dispatchStep_queueOk (s : SysState)
    (h : QueueOk s.jobQueue) : QueueOk (dispatchStep s).jobQueue := by
  unfold dispatchStep
  split
  · exact h
  · rename_i j rest heq
    have hrest : QueueOk rest := by
      apply queueOk_of_sublist _ h
      rw [heq]
      exact List.sublist_cons_self j rest
    split
    · try dsimp only
      split
      · exact hrest
      · exact hrest
    · exact h

theorem completeScheduleStep_queueOk (s : SysState) (j : Job) (outcome : FetchOutcome)
    (now : Int) (h : QueueOk s.jobQueue) :
    QueueOk (completeScheduleStep s j outcome now).jobQueue := by
  unfold completeScheduleStep completeScheduleBody
  try dsimp only
  split
  · exact h
  · try dsimp only
    split
    · exact h
    · try dsimp only
      split
      · exact h
      · exact beginActualPolling_queueOk _ _ h

theorem completePollStep_queueOk (s : SysState) (j : Job) (outcome : FetchOutcome)
    (h : QueueOk s.jobQueue) : QueueOk (completePollStep s j outcome).jobQueue := by
  unfold completePollStep completePollBody
  try dsimp only
  split
  · exact h
  · try dsimp only
    split
    · exact h
    · split <;> split <;> (try split) <;>
        first
        | exact queueOk_of_sublist (processEvents_queue_sublist _ _ _ _) h
        | exact h

theorem sendRecapMessageOn_queue (s : SysState) (c : String) (ok : Bool) :
    (sendRecapMessageOn s c ok).jobQueue = s.jobQueue := by
  unfold sendRecapMessageOn
  split <;> rfl

theorem stopCommand_queueOk (s : SysState) (c : String)
    (h : QueueOk s.jobQueue) : QueueOk (stopCommand s c).jobQueue := by
  unfold stopCommand
  split
  · exact h
  · exact queueOk_of_sublist (removeFirstJob_sublist _ _) h

theorem resetCommand_queueOk (s : SysState) (c : String)
    (h : QueueOk s.jobQueue) : QueueOk (resetCommand s c).jobQueue := by
  unfold resetCommand
  try dsimp only
  split
  · exact h
  · exact queueOk_of_sublist (removeFirstJob_sublist _ _) h

theorem cleanupFireStep_queue (s : SysState) (c : String) :
    (cleanupFireStep s c).jobQueue = s.jobQueue := by
  unfold cleanupFireStep
  split <;> rfl

/-- The queue part of the outstanding-poll invariant, preserved by every
transition of the system. -/
theorem reachable_queueOk {s : SysState} (h : Reachable s) : QueueOk s.jobQueue := by
  induction h with
  | init => exact queueOk_nil
  | step _ hs ih =>
    cases hs with
    | start c url g rf uv => exact startCommand_queueOk _ c url g rf uv ih
    | dispatch => exact dispatchStep_queueOk _ ih
    | masterTick => exact masterSchedulerStep_queueOk _ ih
    | completeSchedule j outcome now hmem htype =>
      exact completeScheduleStep_queueOk _ j outcome now ih
    | completePoll j outcome hmem htype => exact completePollStep_queueOk _ j outcome ih
    | scheduleTimerFire c harmed => exact beginActualPolling_queueOk _ c ih
    | recapTimerTick c sendOk harmed =>
      rw [sendRecapMessageOn_queue]; exact ih
    | stop c => exact stopCommand_queueOk _ c ih
    | reset c => exact resetCommand_queueOk _ c ih
    | cleanupFire c => rw [cleanupFireStep_queue]; exact ih

/-- The concurrency-counter invariant: `activeWorkers` equals the number
of workers currently executing a claimed job. -/
def WOk (s : SysState) : Prop := s.activeWorkers = s.inFlight.length

theorem startCommand_workers (s : SysState) (c url g : String) (rf uv : Bool) :
    (startCommand s c url g rf uv).activeWorkers = s.activeWorkers ∧
    (startCommand s c url g rf uv).inFlight = s.inFlight := by
  unfold startCommand queueTickerScheduling
  try dsimp only
  repeat' split
  all_goals exact ⟨rfl, rfl⟩

theorem beginActualPolling_workers (s : SysState) (c : String) :
    (beginActualPolling s c).activeWorkers = s.activeWorkers ∧
    (beginActualPolling s c).inFlight = s.inFlight := by
  unfold beginActualPolling
  try dsimp only
  repeat' split
  all_goals exact ⟨rfl, rfl⟩

theorem masterSchedulerStep_workers (s : SysState) :
    (masterSchedulerStep s).activeWorkers = s.activeWorkers ∧
    (masterSchedulerStep s).inFlight = s.inFlight := by
  unfold masterSchedulerStep
  try dsimp only
  repeat' split
  all_goals exact ⟨rfl, rfl⟩

theorem sendRecapMessageOn_workers (s : SysState) (c : String) (ok : Bool) :
    (sendRecapMessageOn s c ok).activeWorkers = s.activeWorkers ∧
    (sendRecapMessageOn s c ok).inFlight = s.inFlight := by
  unfold sendRecapMessageOn
  repeat' split
  all_goals exact ⟨rfl, rfl⟩

theorem stopCommand_workers (s : SysState) (c : String) :
    (stopCommand s c).activeWorkers = s.activeWorkers ∧
    (stopCommand s c).inFlight = s.inFlight := by
  unfold stopCommand
  repeat' split
  all_goals exact ⟨rfl, rfl⟩

theorem resetCommand_workers (s : SysState) (c : String) :
    (resetCommand s c).activeWorkers = s.activeWorkers ∧
    (resetCommand s c).inFlight = s.inFlight := by
  unfold resetCommand
  try dsimp only
  repeat' split
  all_goals exact ⟨rfl, rfl⟩

theorem cleanupFireStep_workers (s : SysState) (c : String) :
    (cleanupFireStep s c).activeWorkers = s.activeWorkers ∧
    (cleanupFireStep s c).inFlight = s.inFlight := by
  unfold cleanupFireStep
  repeat' split
  all_goals exact ⟨rfl, rfl⟩

theorem completeScheduleBody_workers (s : SysState) (j : Job) (outcome : FetchOutcome)
    (now : Int) :
    (completeScheduleBody s j outcome now).activeWorkers = s.activeWorkers ∧
    (completeScheduleBody s j outcome now).inFlight = s.inFlight := by
  unfold completeScheduleBody
  try dsimp only
  split
  · exact ⟨rfl, rfl⟩
  · split
    · exact ⟨rfl, rfl⟩
    · try dsimp only
      split
      · exact ⟨rfl, rfl⟩
      · exact beginActualPolling_workers _ _

theorem completePollBody_workers (s : SysState) (j : Job) (outcome : FetchOutcome) :
    (completePollBody s j outcome).activeWorkers = s.activeWorkers ∧
    (completePollBody s j outcome).inFlight = s.inFlight := by
  unfold completePollBody
  try dsimp only
  repeat' split
  all_goals exact ⟨rfl, rfl⟩

/-- The dispatcher preserves the counter invariant: the early-discard
path of the worker's pre-check undoes its increment, the accept path
pairs the increment with a new in-flight job. -/
theorem dispatchStep_wok (s : SysState) (h : WOk s) : WOk (dispatchStep s) := by
  unfold WOk at h ⊢
  unfold dispatchStep
  split
  · exact h
  · try dsimp only
    split
    · split <;> simp [h]
    · exact h

/-- A completing schedule worker decrements the counter exactly once. -/
theorem completeScheduleStep_wok (s : SysState) (j : Job) (outcome : FetchOutcome)
    (now : Int) (hmem : j ∈ s.inFlight) (h : WOk s) :
    WOk (completeScheduleStep s j outcome now) := by
  unfold WOk at h ⊢
  unfold completeScheduleStep
  try dsimp only
  obtain ⟨hw, hf⟩ := completeScheduleBody_workers s j outcome now
  rw [hw, hf, List.length_erase_of_mem hmem, h]

/-- A completing poll worker decrements the counter exactly once. -/
theorem completePollStep_wok (s : SysState) (j : Job) (outcome : FetchOutcome)
    (hmem : j ∈ s.inFlight) (h : WOk s) :
    WOk (completePollStep s j outcome) := by
  unfold WOk at h ⊢
  unfold completePollStep
  try dsimp only
  obtain ⟨hw, hf⟩ := completePollBody_workers s j outcome
  rw [hw, hf, List.length_erase_of_mem hmem, h]

/-- In every reachable state the worker counter equals the number of
running workers: no exit path leaks concurrency budget. -/
theorem reachable_wok {s : SysState} (h : Reachable s) : WOk s := by
  induction h with
  | init => rfl
  | step _ hs ih =>
    cases hs with
    | start c url g rf uv =>
      unfold WOk at ih ⊢
      rw [(startCommand_workers _ c url g rf uv).1, (startCommand_workers _ c url g rf uv).2]
      exact ih
    | dispatch => exact dispatchStep_wok _ ih
    | masterTick =>
      unfold WOk at ih ⊢
      rw [(masterSchedulerStep_workers _).1, (masterSchedulerStep_workers _).2]
      exact ih
    | completeSchedule j outcome now hmem htype =>
      exact completeScheduleStep_wok _ j outcome now hmem ih
    | completePoll j outcome hmem htype => exact completePollStep_wok _ j outcome hmem ih
    | scheduleTimerFire c harmed =>
      unfold WOk at ih ⊢
      rw [(beginActualPolling_workers _ c).1, (beginActualPolling_workers _ c).2]
      exact ih
    | recapTimerTick c sendOk harmed =>
      unfold WOk at ih ⊢
      rw [(sendRecapMessageOn_workers _ c sendOk).1, (sendRecapMessageOn_workers _ c sendOk).2]
      exact ih
    | stop c =>
      unfold WOk at ih ⊢
      rw [(stopCommand_workers _ c).1, (stopCommand_workers _ c).2]
      exact ih
    | reset c =>
      unfold WOk at ih ⊢
      rw [(resetCommand_workers _ c).1, (resetCommand_workers _ c).2]
      exact ih
    | cleanupFire c =>
      unfold WOk at ih ⊢
      rw [(cleanupFireStep_workers _ c).1, (cleanupFireStep_workers _ c).2]
      exact ih

/-- A recap flush either leaves the ticker unchanged or merely empties
the buffer; no other field is ever touched. -/
theorem sendRecapOn_state (t : TickerState) (ok : Bool) :
    (sendRecapOn t ok).1 = t ∨ (sendRecapOn t ok).1 = { t with recapEvents := some [] } := by
  unfold sendRecapOn
  try dsimp only
  repeat' split
  all_goals first | (left; rfl) | (right; rfl)

theorem sendRecapOn_seen (t : TickerState) (ok : Bool) :
    (sendRecapOn t ok).1.seen = t.seen := by
  rcases sendRecapOn_state t ok with h | h <;> rw [h]

theorem sendRecapOn_timers (t : TickerState) (ok : Bool) :
    (sendRecapOn t ok).1.scheduleTimerActive = t.scheduleTimerActive ∧
    (sendRecapOn t ok).1.recapTimerActive = t.recapTimerActive := by
  rcases sendRecapOn_state t ok with h | h <;> rw [h] <;> exact ⟨rfl, rfl⟩

/-- After any run of the recap flush the buffer is empty (`none` models a
ticker whose buffer array was never created: it stays absent, which is
also empty). -/
theorem sendRecapOn_buffer (t : TickerState) (ok : Bool) :
    ((sendRecapOn t ok).1.recapEvents.getD []) = [] := by
  unfold sendRecapOn
  try dsimp only
  repeat' split
  all_goals try rfl
  · rename_i hguard hsome
    cases ht : t.recapEvents with
    | none => rfl
    | some l => rw [ht] at hsome; simp at hsome

theorem tickerAfterEvent_seen (t : TickerState) (ev : Event) :
    (tickerAfterEvent t ev).seen = t.seen ++ [ev.id] := by
  unfold tickerAfterEvent
  try dsimp only
  repeat' split
  all_goals simp [sendRecapOn_seen]

theorem tickerAfterEvent_timers (t : TickerState) (ev : Event) :
    (tickerAfterEvent t ev).scheduleTimerActive = t.scheduleTimerActive ∧
    (tickerAfterEvent t ev).recapTimerActive = t.recapTimerActive := by
  unfold tickerAfterEvent
  try dsimp only
  repeat' split
  all_goals simp [sendRecapOn_timers]

/-- Processing an already-seen event is skipped entirely. -/
theorem processLoop_skip (c : String) (q : List Job) (t : TickerState) (ev : Event)
    (rest : List Event) (h : ev.id ∈ t.seen) :
    processLoop c q t (ev :: rest) = processLoop c q t rest := by
  simp [processLoop, h]

/-- On an unseen game-end event the loop stops with the terminal effects,
regardless of the remaining events. -/
theorem processLoop_terminal_eq (c : String) (q : List Job) (t : TickerState) (ev : Event)
    (rest : List Event) (hseen : ev.id ∉ t.seen)
    (htype : ev.type = "StopPeriod") (hmin : 30 < minuteOf ev.time) :
    processLoop c q t (ev :: rest) =
      { ticker := { tickerAfterEvent t ev with isPolling := false, recapTimerActive := false },
        queue := removeFirstJob (fun j => j.chatId == c) q,
        messages := eventMessages t ev,
        liveSent := eventLiveSent t ev,
        delayed := [(1000, "stats"), (2000, "aiSummary"), (4000, "finalMessage"), (3600000, "cleanup")],
        gameEnded := true,
        newUnseen := true } := by
  simp [processLoop, hseen, htype, hmin]

/-- On an unseen non-terminal event the loop applies the per-event state
change and continues with the rest of the list. -/
theorem processLoop_cons_eq (c : String) (q : List Job) (t : TickerState) (ev : Event)
    (rest : List Event) (hseen : ev.id ∉ t.seen)
    (hterm : ¬(ev.type = "StopPeriod" ∧ 30 < minuteOf ev.time)) :
    processLoop c q t (ev :: rest) =
      { processLoop c q (tickerAfterEvent t ev) rest with
        messages := eventMessages t ev ++ (processLoop c q (tickerAfterEvent t ev) rest).messages,
        liveSent := eventLiveSent t ev ++ (processLoop c q (tickerAfterEvent t ev) rest).liveSent,
        newUnseen := true } := by
  simp [processLoop, hseen, hterm]


/-- The seen set after processing extends the seen set before: ids are
only ever appended. -/
theorem processLoop_seen_extends (c : String) (q : List Job) (evs : List Event)
    (t : TickerState) :
    ∃ extra, (processLoop c q t evs).ticker.seen = t.seen ++ extra := by
  induction evs generalizing t with
  | nil => exact ⟨[], by simp [processLoop]⟩
  | cons ev rest ih =>
    by_cases hseen : ev.id ∈ t.seen
    · rw [processLoop_skip c q t ev rest hseen]
      exact ih t
    · by_cases hterm : ev.type = "StopPeriod" ∧ 30 < minuteOf ev.time
      · rw [processLoop_terminal_eq c q t ev rest hseen hterm.1 hterm.2]
        exact ⟨[ev.id], by simp [tickerAfterEvent_seen]⟩
      · rw [processLoop_cons_eq c q t ev rest hseen hterm]
        obtain ⟨e2, he2⟩ := ih (tickerAfterEvent t ev)
        refine ⟨[ev.id] ++ e2, ?_⟩
        show (processLoop c q (tickerAfterEvent t ev) rest).ticker.seen = t.seen ++ ([ev.id] ++ e2)
        rw [he2, tickerAfterEvent_seen, List.append_assoc]

/-- The live-mode messages are delivered along a subsequence of the
processed (chronological) event list. -/
theorem processLoop_liveSent_sublist (c : String) (q : List Job) (evs : List Event)
    (t : TickerState) : List.Sublist (processLoop c q t evs).liveSent evs := by
  induction evs generalizing t with
  | nil => simp [processLoop]
  | cons ev rest ih =>
    by_cases hseen : ev.id ∈ t.seen
    · rw [processLoop_skip c q t ev rest hseen]
      exact List.Sublist.cons ev (ih t)
    · by_cases hterm : ev.type = "StopPeriod" ∧ 30 < minuteOf ev.time
      · rw [processLoop_terminal_eq c q t ev rest hseen hterm.1 hterm.2]
        show List.Sublist (eventLiveSent t ev) (ev :: rest)
        unfold eventLiveSent
        split
        · exact List.Sublist.cons₂ ev (List.nil_sublist rest)
        · exact List.nil_sublist _
      · rw [processLoop_cons_eq c q t ev rest hseen hterm]
        show List.Sublist (eventLiveSent t ev ++ (processLoop c q (tickerAfterEvent t ev) rest).liveSent) (ev :: rest)
        unfold eventLiveSent
        split
        · exact List.Sublist.cons₂ ev (ih _)
        · exact List.Sublist.cons ev (ih _)

/-- Concrete execution: a user creates a live ticker for a game that has
already kicked off.  The schedule worker completes with an immediate
start, the first poll job is dispatched, and — while that poll fetch is
still in flight — the master scheduler enqueues a second poll job for
the same chat, because its duplicate check scans only the queue. -/
def traceJob1 : Job :=
  { type := "schedule", chatId := "chat1", meetingPageUrl := "https://www.handball.net/spiele/id1/ticker" }

def traceSummary1 : GameSummary :=
  { startsAt := 0, homeTeam := "THW", awayTeam := "SGF", updatedAt := "v1" }

def traceS1 : SysState :=
  startCommand initState "chat1" "https://www.handball.net/spiele/id1/ticker" "Gruppe" false true

def traceS2 : SysState := dispatchStep traceS1

def traceS3 : SysState := completeScheduleStep traceS2 traceJob1 (.ok traceSummary1 []) 1000000

def traceS4 : SysState := dispatchStep traceS3

def traceS5 : SysState := masterSchedulerStep traceS4

theorem reachable_traceS1 : Reachable traceS1 :=
  Reachable.step Reachable.init
    (Step.start initState "chat1" "https://www.handball.net/spiele/id1/ticker" "Gruppe" false true)

theorem reachable_traceS2 : Reachable traceS2 :=
  Reachable.step reachable_traceS1 (Step.dispatch traceS1)

theorem reachable_traceS3 : Reachable traceS3 :=
  Reachable.step reachable_traceS2
    (Step.completeSchedule traceS2 traceJob1 (.ok traceSummary1 []) 1000000 (by decide) rfl)

theorem reachable_traceS4 : Reachable traceS4 :=
  Reachable.step reachable_traceS3 (Step.dispatch traceS3)

theorem reachable_traceS5 : Reachable traceS5 :=
  Reachable.step reachable_traceS4 (Step.masterTick traceS4)

theorem traceS5_outstanding :
    pollCount traceS5.jobQueue "chat1" = 1 ∧ pollCount traceS5.inFlight "chat1" = 1 := by
  constructor <;> decide

/-- C1 (counterexample): a reachable state holds one queued and one
in-flight poll job for the same chat simultaneously — the duplicate
check of `masterScheduler` scans only the queue, not in-flight work, so
the claimed queue-or-in-flight invariant fails. -/
theorem C1_counterexample :
    Reachable traceS5 ∧
    pollCount traceS5.jobQueue "chat1" + pollCount traceS5.inFlight "chat1" = 2 :=
  ⟨reachable_traceS5, by decide⟩

/-- C1 (amended): in every reachable state the Job Queue itself holds at
most one poll job per chat id — both enqueue sites
(`masterScheduler` and `beginActualPolling`) first check the queue — but
a poll job may well be enqueued while another poll job for the same chat
is in flight. -/
theorem C1_queue_at_most_one_poll {s : SysState} (h : Reachable s) (c : String) :
    pollCount s.jobQueue c ≤ 1 :=
  reachable_queueOk h c

/-- C1 witness: the amended bound at the concrete reachable state of the
counterexample trace. -/
theorem C1_witness : pollCount traceS5.jobQueue "chat1" ≤ 1 :=
  C1_queue_at_most_one_poll reachable_traceS5 "chat1"

/-- State used for the C2 analysis: a live ticker that still owns an
armed schedule timer, with an armed recap timer as well. -/
def c2Ticker : TickerState :=
  { isPolling := true, mode := "live", teamNames := some ⟨"THW", "SGF"⟩,
    scheduleTimerActive := true, recapTimerActive := true }

def c2Event : Event :=
  { id := "e9", type := "StopPeriod", time := "60:00", score := "30-25",
    team := "Home", message := "Spielende", timestamp := 900 }

def c2Jobs : List Job :=
  [{ type := "poll", chatId := "chat1" }, { type := "schedule", chatId := "chat1" }]

/-- C2 (counterexample): on a game-end event the processor leaves the
schedule timer armed (only `recapIntervalId` is cleared; `scheduleTimeout`
is never touched), and of two queued jobs for the chat only the first is
spliced out. -/
theorem C2_counterexample :
    (processEvents [c2Event] c2Ticker "chat1" c2Jobs).gameEnded = true ∧
    (processEvents [c2Event] c2Ticker "chat1" c2Jobs).ticker.scheduleTimerActive = true ∧
    (processEvents [c2Event] c2Ticker "chat1" c2Jobs).queue =
      [{ type := "schedule", chatId := "chat1" }] := by
  refine ⟨?_, ?_, ?_⟩ <;> decide

/-- C2 (amended): when the processor reaches an unseen `StopPeriod` event
whose game-clock minute exceeds 30, polling stops, the recap timer is
cancelled (the schedule timer handle is left untouched), the oldest
queued job for the chat is removed from the queue, the final statistics,
AI summary and closing message are scheduled at the fixed delays 1s, 2s
and 4s, the deferred registry removal is scheduled after the 1-hour
retention window, and the remaining events of the snapshot are not
processed. -/
theorem C2_terminal_effects (c : String) (q : List Job) (t : TickerState) (ev : Event)
    (rest rest2 : List Event) (hseen : ev.id ∉ t.seen)
    (htype : ev.type = "StopPeriod") (hmin : 30 < minuteOf ev.time) :
    (processLoop c q t (ev :: rest)).gameEnded = true ∧
    (processLoop c q t (ev :: rest)).ticker.isPolling = false ∧
    (processLoop c q t (ev :: rest)).ticker.recapTimerActive = false ∧
    (processLoop c q t (ev :: rest)).ticker.scheduleTimerActive = t.scheduleTimerActive ∧
    (processLoop c q t (ev :: rest)).queue = removeFirstJob (fun j => j.chatId == c) q ∧
    (processLoop c q t (ev :: rest)).delayed =
      [(1000, "stats"), (2000, "aiSummary"), (4000, "finalMessage"), (3600000, "cleanup")] ∧
    processLoop c q t (ev :: rest) = processLoop c q t (ev :: rest2) := by
  rw [processLoop_terminal_eq c q t ev rest hseen htype hmin,
      processLoop_terminal_eq c q t ev rest2 hseen htype hmin]
  exact ⟨rfl, rfl, rfl, (tickerAfterEvent_timers t ev).1, rfl, rfl, rfl⟩

/-- C2 witness: the amended terminal effects at the concrete game-end
input. -/
theorem C2_witness :
    (processLoop "chat1" c2Jobs c2Ticker [c2Event]).ticker.scheduleTimerActive =
      c2Ticker.scheduleTimerActive ∧
    (processLoop "chat1" c2Jobs c2Ticker [c2Event]).ticker.recapTimerActive = false := by
  have h := C2_terminal_effects "chat1" c2Jobs c2Ticker c2Event [] [] (by decide) rfl (by decide)
  exact ⟨h.2.2.2.1, h.2.2.1⟩

/-- C3: the seen set only grows (processing appends ids, never removes),
and processing an event whose id is already seen is a complete no-op:
the whole loop result — ticker state, queue, messages, recap buffer and
the new-events flag — is the same as if the event were absent. -/
theorem C3_dedup_monotone_and_idempotent :
    (∀ (c : String) (q : List Job) (evs : List Event) (t : TickerState),
      ∃ extra, (processLoop c q t evs).ticker.seen = t.seen ++ extra) ∧
    (∀ (c : String) (q : List Job) (t : TickerState) (ev : Event) (rest : List Event),
      ev.id ∈ t.seen → processLoop c q t (ev :: rest) = processLoop c q t rest) :=
  ⟨fun c q evs t => processLoop_seen_extends c q evs t,
   fun c q t ev rest h => processLoop_skip c q t ev rest h⟩

def c3Ticker : TickerState := { mode := "live", seen := ["e1"] }

def c3Event : Event :=
  { id := "e1", type := "Goal", score := "1-0", team := "Home", time := "05:12", timestamp := 10 }

/-- C3 witness: re-processing the already-seen event `e1` changes
nothing. -/
theorem C3_witness :
    (∃ extra, (processLoop "chat1" [] c3Ticker [c3Event]).ticker.seen = c3Ticker.seen ++ extra) ∧
    processLoop "chat1" [] c3Ticker [c3Event] = processLoop "chat1" [] c3Ticker [] := by
  constructor
  · exact C3_dedup_monotone_and_idempotent.1 "chat1" [] [c3Event] c3Ticker
  · exact C3_dedup_monotone_and_idempotent.2 "chat1" [] c3Ticker c3Event [] (by decide)

/-- C4: on a newest-first feed (timestamps non-increasing) the processor
reverses the list before processing, so the live-mode messages are
delivered for events in non-decreasing timestamp order. -/
theorem C4_chronological_delivery (events : List Event) (t : TickerState) (c : String)
    (q : List Job)
    (hnf : events.Pairwise (fun a b => b.timestamp ≤ a.timestamp)) :
    ((processEvents events t c q).liveSent).Pairwise
      (fun a b => a.timestamp ≤ b.timestamp) := by
  have hchron : events.reverse.Pairwise (fun a b => a.timestamp ≤ b.timestamp) := by
    rw [List.pairwise_reverse]
    exact hnf
  exact List.Pairwise.sublist (processLoop_liveSent_sublist c q events.reverse t) hchron

def c4Events : List Event :=
  [{ id := "a", type := "Goal", timestamp := 30, score := "2-0", team := "Home", time := "12:00" },
   { id := "b", type := "Goal", timestamp := 20, score := "1-0", team := "Home", time := "07:00" }]

def c4Ticker : TickerState := { mode := "live", teamNames := some ⟨"THW", "SGF"⟩ }

/-- C4 witness: a concrete newest-first feed yields messages in
chronological order. -/
theorem C4_witness :
    ((processEvents c4Events c4Ticker "chat1" []).liveSent).Pairwise
      (fun a b => a.timestamp ≤ b.timestamp) :=
  C4_chronological_delivery c4Events c4Ticker "chat1" [] (by decide)

def c5State : SysState :=
  { jobQueue := [{ type := "poll", chatId := "a" }, { type := "poll", chatId := "b" }] }

/-- C5 (counterexample): with two queued jobs and the full budget of
`MAX_WORKERS = 2` free, one dispatcher tick removes only the first job —
the loop body is an `if`, not a `while`, so it never drains the queue up
to the budget in a single tick. -/
theorem C5_counterexample :
    c5State.jobQueue.length = 2 ∧ c5State.activeWorkers = 0 ∧
    (dispatchStep c5State).jobQueue = [{ type := "poll", chatId := "b" }] := by
  refine ⟨rfl, rfl, ?_⟩
  decide

/-- C5 (amended): a dispatcher tick is a no-op when the queue is empty or
no budget remains, and otherwise dispatches exactly the single oldest
job (handing it to a worker which either discards it as stale or runs
it) — at most one job per tick, not as many as the budget allows. -/
theorem C5_single_dispatch (s : SysState) :
    (s.jobQueue = [] → dispatchStep s = s) ∧
    (MAX_WORKERS ≤ s.activeWorkers → dispatchStep s = s) ∧
    (∀ j rest, s.jobQueue = j :: rest → s.activeWorkers < MAX_WORKERS →
      (dispatchStep s).jobQueue = rest) := by
  refine ⟨?_, ?_, ?_⟩
  · intro h
    unfold dispatchStep
    split
    · rfl
    · rename_i j2 rest2 heq
      rw [h] at heq
      cases heq
  · intro h
    unfold dispatchStep
    split
    · rfl
    · split
      · rename_i hlt
        omega
      · rfl
  · intro j rest hq hw
    unfold dispatchStep
    split
    · rename_i heq
      rw [hq] at heq
      cases heq
    · rename_i j2 rest2 heq
      rw [hq] at heq
      injection heq with h1 h2
      subst h1
      subst h2
      split
      · try dsimp only
        split <;> rfl
      · rename_i hnlt
        exact absurd hw hnlt

/-- C5 witness: the single-dispatch behaviour at the concrete two-job
state. -/
theorem C5_witness :
    (dispatchStep c5State).jobQueue = [{ type := "poll", chatId := "b" }] :=
  (C5_single_dispatch c5State).2.2 { type := "poll", chatId := "a" }
    [{ type := "poll", chatId := "b" }] rfl (by decide)

/-- C6: in every reachable state the `activeWorkers` counter equals the
number of running (claimed, not yet completed) workers — every exit path
of a worker (early discard, success, failure) decrements it exactly
once, so no budget leaks. -/
theorem C6_worker_counter {s : SysState} (h : Reachable s) :
    s.activeWorkers = s.inFlight.length :=
  reachable_wok h

/-- C6 witness: the counter matches the one in-flight worker after the
first dispatch of the concrete trace. -/
theorem C6_witness : traceS2.activeWorkers = traceS2.inFlight.length :=
  C6_worker_counter reachable_traceS2

def c7State : SysState := { registry := [("chat1", { isScheduling := true })] }

/-- C7 (counterexample): a ticker in the Scheduling phase (isScheduling,
neither polling nor scheduled) does not trigger the AlreadyActive
rejection: a second `!start1` goes through and enqueues a second
schedule job. -/
theorem C7_counterexample :
    (rget c7State.registry "chat1").map (fun t => t.isScheduling) = some true ∧
    (rget c7State.registry "chat1").map (fun t => t.isPolling) = some false ∧
    (rget c7State.registry "chat1").map (fun t => t.isScheduled) = some false ∧
    (startCommand c7State "chat1" "https://www.handball.net/spiele/id2/ticker" "G" false true).jobQueue =
      [{ type := "schedule", chatId := "chat1",
         meetingPageUrl := "https://www.handball.net/spiele/id2/ticker" }] := by
  refine ⟨?_, ?_, ?_, ?_⟩ <;> decide

/-- C7 (amended): creation is rejected — reply only, no state change and
no job enqueued — exactly when an entry for the chat exists with
`isPolling` or `isScheduled` set; an entry in the Scheduling phase alone
is not rejected. -/
theorem C7_reject_only_polling_or_scheduled (s : SysState) (c url g : String)
    (rf uv : Bool) (t : TickerState) (hr : rget s.registry c = some t)
    (hact : t.isPolling = true ∨ t.isScheduled = true) :
    startCommand s c url g rf uv =
      { s with messages := s.messages ++ [(c, alreadyActiveMsg)] } := by
  unfold startCommand
  rw [hr]
  have hb : (t.isPolling || t.isScheduled) = true := by
    rcases hact with h | h <;> simp [h]
  simp [hb]

def c7bState : SysState := { registry := [("chat1", { isPolling := true })] }

/-- C7 witness: a polling ticker makes the second `!start1` a pure
rejection. -/
theorem C7_witness :
    startCommand c7bState "chat1" "u" "G" false true =
      { c7bState with messages := c7bState.messages ++ [("chat1", alreadyActiveMsg)] } :=
  C7_reject_only_polling_or_scheduled c7bState "chat1" "u" "G" false true
    { isPolling := true } rfl (Or.inl rfl)

/-- C8: a failing fetch of a `schedule` job is terminal — the ticker is
deleted from the registry, its persisted schedule entry is removed, a
user-visible failure notice is sent, and nothing is re-enqueued — while
a failing fetch of a `poll` job changes neither registry, queue,
messages nor persisted files. -/
theorem C8_fetch_failure_policy :
    (∀ (s : SysState) (j : Job) (now : Int),
      (completeScheduleStep s j .fail now).registry = rdel s.registry j.chatId ∧
      (completeScheduleStep s j .fail now).scheduleFile = sremove s.scheduleFile j.chatId ∧
      (completeScheduleStep s j .fail now).messages =
        s.messages ++ [(j.chatId, "Fehler: Die initiale Planung des Tickers ist fehlgeschlagen. Bitte versuchen Sie es erneut.")] ∧
      (completeScheduleStep s j .fail now).jobQueue = s.jobQueue) ∧
    (∀ (s : SysState) (j : Job),
      (completePollStep s j .fail).registry = s.registry ∧
      (completePollStep s j .fail).jobQueue = s.jobQueue ∧
      (completePollStep s j .fail).messages = s.messages ∧
      (completePollStep s j .fail).scheduleFile = s.scheduleFile ∧
      (completePollStep s j .fail).seenFile = s.seenFile) := by
  constructor
  · intro s j now
    exact ⟨rfl, rfl, rfl, rfl⟩
  · intro s j
    exact ⟨rfl, rfl, rfl, rfl, rfl⟩

/-- C9: after any invocation of the recap flush on an existing ticker —
whatever triggered it and whether or not the send succeeded — the
ticker's recap buffer is empty. -/
theorem C9_flush_empties_buffer (s : SysState) (c : String) (ok : Bool) (t : TickerState)
    (h : rget s.registry c = some t) :
    ∃ t2, rget (sendRecapMessageOn s c ok).registry c = some t2 ∧
      t2.recapEvents.getD [] = [] := by
  unfold sendRecapMessageOn
  rw [h]
  exact ⟨(sendRecapOn t ok).1, rget_rset_self s.registry c _, sendRecapOn_buffer t ok⟩

def c9Ticker : TickerState :=
  { isPolling := true, mode := "recap", teamNames := some ⟨"THW", "SGF"⟩,
    recapEvents := some [{ id := "e1", type := "Goal", time := "10:00", score := "1-0",
                           team := "Home", timestamp := 5 }] }

def c9State : SysState := { registry := [("chat1", c9Ticker)] }

/-- C9 witness: a failing send still leaves the buffer empty. -/
theorem C9_witness :
    ∃ t2, rget (sendRecapMessageOn c9State "chat1" false).registry "chat1" = some t2 ∧
      t2.recapEvents.getD [] = [] :=
  C9_flush_empties_buffer c9State "chat1" false c9Ticker rfl

/-- Backfilling missing team names leaves the version marker untouched.
-/
theorem teamNamesBackfill_lastUpdatedAt (t : TickerState) (tn : TeamNames) (b : Bool) :
    (if b = true then { t with teamNames := some tn } else t).lastUpdatedAt =
      t.lastUpdatedAt := by
  split <;> rfl

/-- C10: a fetched poll snapshot whose `summary.updatedAt` is falsy is
never processed: the version marker, seen set and recap buffer of the
ticker are untouched, no message is sent, the seen file is not
rewritten and the queue is unchanged — whatever the event list
contains. -/
theorem C10_falsy_version_marker (s : SysState) (j : Job) (summary : GameSummary)
    (events : List Event) (hfalsy : summary.updatedAt = "") :
    (completePollStep s j (.ok summary events)).jobQueue = s.jobQueue ∧
    (completePollStep s j (.ok summary events)).seenFile = s.seenFile ∧
    (completePollStep s j (.ok summary events)).messages = s.messages ∧
    ∀ t, rget s.registry j.chatId = some t →
      ∃ t2, rget (completePollStep s j (.ok summary events)).registry j.chatId = some t2 ∧
        t2.lastUpdatedAt = t.lastUpdatedAt ∧ t2.seen = t.seen ∧
        t2.recapEvents = t.recapEvents := by
  unfold completePollStep completePollBody
  try dsimp only
  rcases hrg : rget s.registry j.chatId with _ | t
  · refine ⟨rfl, rfl, rfl, ?_⟩
    intro t ht
    cases ht
  · try dsimp only
    simp only [teamNamesBackfill_lastUpdatedAt, hfalsy, bne_self_eq_false, Bool.false_and,
      Bool.false_eq_true, if_false]
    refine ⟨by trivial, by trivial, by trivial, ?_⟩
    intro t2 ht
    injection ht with ht
    subst ht
    split
    · exact ⟨_, rget_rset_self s.registry j.chatId _, rfl, rfl, rfl⟩
    · exact ⟨_, rget_rset_self s.registry j.chatId _, rfl, rfl, rfl⟩

def c10Ticker : TickerState :=
  { isPolling := true, mode := "live", lastUpdatedAt := "v1", seen := ["x"] }

def c10State : SysState := { registry := [("chat1", c10Ticker)] }

def c10Job : Job := { type := "poll", chatId := "chat1" }

def c10Summary : GameSummary :=
  { startsAt := 0, homeTeam := "THW", awayTeam := "SGF", updatedAt := "" }

def c10Events : List Event :=
  [{ id := "new1", type := "Goal", score := "1-0", team := "Home", time := "01:00", timestamp := 1 }]

/-- C10 witness: an unseen event behind a falsy version marker produces
no processing at the concrete input. -/
theorem C10_witness :
    (completePollStep c10State c10Job (.ok c10Summary c10Events)).seenFile =
      c10State.seenFile ∧
    ∃ t2, rget (completePollStep c10State c10Job (.ok c10Summary c10Events)).registry
        "chat1" = some t2 ∧
      t2.lastUpdatedAt = c10Ticker.lastUpdatedAt ∧ t2.seen = c10Ticker.seen ∧
      t2.recapEvents = c10Ticker.recapEvents := by
  have h := C10_falsy_version_marker c10State c10Job c10Summary c10Events rfl
  exact ⟨h.2.1, h.2.2.2 c10Ticker rfl⟩
